import Mathlib

/-!
Verification of the polyflow-sdk provider-interception and event-deduplication
engine.  The definitions below are shallow embeddings of the TypeScript
functions of the repository (the canonical, most recent variant of each
function); machine arithmetic (JavaScript 32-bit integer coercion) is made
explicit, fallible operations return `Option` or `Except`, and the mutable
stores (the dedup hash map persisted in localStorage, the pending
bridge-request map `wsMessages`) are passed as explicit state.
-/

namespace Polyflow

/-! ## JavaScript primitives -/

/-- JavaScript `ToInt32` coercion (`x |= 0` and the result of `<<`):
reduce modulo 2^32 = 4294967296 into the signed range
`[-2147483648, 2147483648)`. -/
def toInt32 (n : Int) : Int :=
  (n + 2147483648) % 4294967296 - 2147483648

/-- Truthiness of a JavaScript number: falsy exactly when it is `0`
(`NaN` does not arise for the integer timestamps modelled here). -/
def jsNumTruthy (n : Int) : Bool :=
  n != 0

/-- Truthiness of a JavaScript string: falsy exactly when empty. -/
def jsStrTruthy (s : String) : Bool :=
  s != ""

/-- Truthiness of a possibly-absent JavaScript string
(`undefined`/`null` and `""` are falsy). -/
def jsOptStrTruthy : Option String → Bool
  | none => false
  | some s => jsStrTruthy s

/-- `needle` occurs at the start of `hay` (helper for `String.indexOf`). -/
def listStartsWith : List Char → List Char → Bool
  | [], _ => true
  | _ :: _, [] => false
  | a :: as, b :: bs => a == b && listStartsWith as bs

/-- JavaScript `hay.indexOf(needle) !== -1`: `needle` occurs somewhere in
`hay`. -/
def jsIndexOfFound (needle : List Char) : List Char → Bool
  | [] => listStartsWith needle []
  | b :: bs => listStartsWith needle (b :: bs) || jsIndexOfFound needle bs

/-! ## The dedup hash map (a JavaScript `Map<string, number>` round-tripped
through `localStorage` as an entry list by `loadMap` / `storeMap`) -/

/-- `Map.prototype.get`: the entry lists produced by `storeMap` have unique
keys, so first-match lookup is the map lookup. -/
def mapGet (m : List (String × Int)) (k : String) : Option Int :=
  match m with
  | [] => none
  | (k0, v0) :: rest => if k0 == k then some v0 else mapGet rest k

/-- `Map.prototype.set`: overwrite the entry for `k` in place if present,
otherwise append it. -/
def mapSet (m : List (String × Int)) (k : String) (v : Int) :
    List (String × Int) :=
  match m with
  | [] => [(k, v)]
  | (k0, v0) :: rest =>
    if k0 == k then (k, v) :: rest else (k0, v0) :: mapSet rest k v

/-! ## `hashEvent` (src/unnamed/part_000 lines 2596-2605)

```js
function hashEvent(event) {
  const data = JSON.stringify(event);
  let hash = 0;
  for (let i = 0, len = data.length; i < len; i++) {
    let chr = data.charCodeAt(i);
    hash = (hash << 5) - hash + chr;
    hash |= 0; // Convert to 32bit integer
  }
  return hash.toString();
}
```
`hash` is a 32-bit integer before each iteration, so `hash << 5` is
`toInt32 (hash * 32)` and the trailing `|= 0` is another `toInt32`. -/

/-- One iteration of the `hashEvent` loop on character code `c`. -/
def hashEventStep (hash : Int) (c : Nat) : Int :=
  toInt32 (toInt32 (hash * 32) - hash + c)

/-- The fold of the `hashEvent` loop over the serialized event text. -/
def hashEventFold (data : String) : Int :=
  data.data.foldl (fun h c => hashEventStep h c.toNat) 0

/-- `hashEvent`: serialize the event with `JSON.stringify` (passed in as
`stringify`, the host serializer) and fold the 32-bit hash over the
character codes, returning its decimal string. -/
def hashEvent (stringify : α → String) (event : α) : String :=
  toString (hashEventFold (stringify event))

/-! ## `checkShouldLogEvent` / `storeEvent` (part_000 lines 2553-2583)

```js
const MIN_TIME_DIFF_FOR_EVENT_LOG_MS = 1000;
function checkShouldLogEvent(event) {
  const eventHash = hashEvent(event);
  const hashMap = loadMap();
  const currentTimestamp = Date.now();
  const previousTimestamp = hashMap.get(eventHash);
  let shouldBeLogged = true;
  if (previousTimestamp) {
    const timeDifference = currentTimestamp - previousTimestamp;
    if (timeDifference < MIN_TIME_DIFF_FOR_EVENT_LOG_MS) {
      shouldBeLogged = false;
    }
  }
  storeEvent(eventHash, currentTimestamp);
  return shouldBeLogged;
}
```
The durable store (localStorage round-trip through `loadMap`/`storeMap`) is
the explicit state `store`; `Date.now()` is the explicit input `now`. -/

def MIN_TIME_DIFF_FOR_EVENT_LOG_MS : Int := 1000

/-- `storeEvent`: load the map, set the hash to the timestamp, store it. -/
def storeEvent (store : List (String × Int)) (eventHash : String)
    (timestamp : Int) : List (String × Int) :=
  mapSet store eventHash timestamp

/-- `checkShouldLogEvent`: returns the decision together with the updated
durable dedup store. -/
def checkShouldLogEvent (stringify : α → String) (event : α) (now : Int)
    (store : List (String × Int)) : Bool × List (String × Int) :=
  let eventHash := hashEvent stringify event
  let previousTimestamp := mapGet store eventHash
  let shouldBeLogged :=
    match previousTimestamp with
    | none => true
    | some prev =>
      if jsNumTruthy prev && decide (now - prev < MIN_TIME_DIFF_FOR_EVENT_LOG_MS)
      then false else true
  (shouldBeLogged, storeEvent store eventHash now)

/-- The emission loop at every call site
(`if (checkShouldLogEvent(events[i])) { await gqlClient.request(...) }`):
process timestamped events in order against the dedup store and count the
backend calls made. -/
def logEventsCalls (stringify : α → String) (events : List (α × Int))
    (store : List (String × Int)) : Nat × List (String × Int) :=
  match events with
  | [] => (0, store)
  | (e, t) :: rest =>
    let r := checkShouldLogEvent stringify e t store
    let rec_ := logEventsCalls stringify rest r.2
    ((if r.1 then 1 else 0) + rec_.1, rec_.2)

/-! ## The pending-bridge-request map and the inbound WalletConnect branch of
the WebSocket message listener (part_000 lines 1251-1323)

`wsMessages : Map<string, any>` maps a bridge correlation id to the captured
transaction params.  The inbound listener, once a frame has been parsed and
decrypted to `decrypted`, runs:

```js
if (decrypted.id && wsMessages.has(decrypted.id)) {
  const txData = wsMessages.get(decrypted.id);
  if (decrypted.error) {
    if (decrypted.error.message && decrypted.error.message.includes('rejected')) {
      logSendTransaction(txData, TxStatus.CANCELLED, null, {...});
    }
  } else {
    const hash = decrypted.result;
    logSendTransaction(txData, TxStatus.PENDING, hash, {...});
  }
} else { ... }
```
No branch ever calls `wsMessages.delete`. -/

inductive TxStatus where
  | PENDING
  | SUCCESS
  | FAILURE
  | CANCELLED
deriving DecidableEq, Repr

/-- Captured transaction params stored in `wsMessages` (opaque here). -/
structure TxData where
  fromAddr : String
deriving DecidableEq, Repr

/-- A decrypted inbound bridge frame: correlation id (absent or falsy when
the frame is not a response), optional error object with optional message,
and the result field carrying the transaction hash on success. -/
structure DecryptedInbound where
  id : Option String
  error : Option (Option String)
  result : Option String
deriving DecidableEq, Repr

/-- One `logSendTransaction` call observed: the tx params, the status and
the hash argument. -/
structure Emission where
  txData : TxData
  status : TxStatus
  hash : Option String
deriving DecidableEq, Repr

/-- The pending-bridge-request map `wsMessages`. -/
abbrev WsMessages := List (String × TxData)

/-- `Map.prototype.get` on `wsMessages`. -/
def wsGet (m : WsMessages) (k : String) : Option TxData :=
  match m with
  | [] => none
  | (k0, v0) :: rest => if k0 == k then some v0 else wsGet rest k

/-- The WalletConnect inbound branch acting on a decrypted frame: returns
the `logSendTransaction` calls made and the map afterwards.  The map is
returned unchanged on every path: the source has no `wsMessages.delete`. -/
def handleWcInbound (decrypted : DecryptedInbound) (wsMessages : WsMessages) :
    List Emission × WsMessages :=
  match decrypted.id with
  | none => ([], wsMessages)
  | some id =>
    if jsStrTruthy id then
      match wsGet wsMessages id with
      | none => ([], wsMessages)
      | some txData =>
        match decrypted.error with
        | some err =>
          match err with
          | some msg =>
            if jsStrTruthy msg && jsIndexOfFound "rejected".data msg.data then
              ([⟨txData, TxStatus.CANCELLED, none⟩], wsMessages)
            else ([], wsMessages)
          | none => ([], wsMessages)
        | none => ([⟨txData, TxStatus.PENDING, decrypted.result⟩], wsMessages)
    else ([], wsMessages)

/-! ## The provider forwarding wrapper `handler` (part_000 lines 1530-1587)

```js
const proxiedFunctions = ['request'];
const handler = {
  get(target, prop, receiver) {
    if (!proxiedFunctions.includes(prop)) {
      return Reflect.get(target, prop, receiver);
    }
    return async (...args) => { ... };
  },
};
```
The wrapped dispatch normalizes `(method, params)`, awaits the underlying
call and, in its `catch`, emits a CANCELLED event when `err.code == 4001`;
it contains no `throw`, so after the `catch` the async function resolves
with `undefined`. -/

/-- What `handler.get` yields for a property: the underlying object's own
value (`Reflect.get` pass-through) or the wrapping dispatch function. -/
inductive HandlerGetResult (α : Type) where
  | passthrough (value : α)
  | wrappedDispatch
deriving DecidableEq, Repr

def proxiedFunctions : List String := ["request"]

/-- `handler.get`: `target` is the underlying provider viewed as its
property table. -/
def handlerGet (target : String → α) (prop : String) : HandlerGetResult α :=
  if !proxiedFunctions.contains prop then
    HandlerGetResult.passthrough (target prop)
  else
    HandlerGetResult.wrappedDispatch

/-- A JavaScript error thrown by the underlying `request` call; only its
`code` field is inspected by the wrapper. -/
structure JsError where
  code : Option Int
deriving DecidableEq, Repr

/-- What the caller of the wrapped `request` observes: the async function
resolves with a value (possibly `undefined`, modelled `none`) or rejects
with a thrown error. -/
inductive CallerOutcome where
  | value (v : Option String)
  | thrown (e : JsError)
deriving DecidableEq, Repr

/-- The wrapped `request` dispatch on a transaction-shaped call: `method`
and the first params entry (its `from` address) are the normalized call,
`underlying` is the outcome of the real `Reflect.get(target, prop)(...)`
call.  Returns the `logSendTransaction`/`logWalletConnect` emissions made
and the outcome delivered to the caller.  In the source the `catch` block
logs, emits CANCELLED on `err.code == 4001`, and falls through without
re-throwing, so every failure resolves to `undefined`. -/
def handlerRequest (method : String) (paramsFrom : String)
    (underlying : Except JsError String) : List Emission × CallerOutcome :=
  match underlying with
  | Except.ok result =>
    if method == "eth_sendTransaction" then
      ([⟨⟨paramsFrom⟩, TxStatus.PENDING, some result⟩],
        CallerOutcome.value (some result))
    else
      ([], CallerOutcome.value (some result))
  | Except.error err =>
    match err.code with
    | some c =>
      if jsNumTruthy c && c == 4001 then
        ([⟨⟨paramsFrom⟩, TxStatus.CANCELLED, none⟩], CallerOutcome.value none)
      else
        ([], CallerOutcome.value none)
    | none => ([], CallerOutcome.value none)

/-! ## The WebSocket interception boundary (part_000 lines 1259-1488)

Outbound: `proxiedSend` wraps its whole body in `try { ... } catch (error)
{ pfLog(...); return originalSend.apply(this, arguments); }` and every
branch of the body ends in `return originalSend.apply(this, arguments)`,
so the unmodified arguments are forwarded exactly once and nothing is
thrown to the caller.

Inbound: the `message` listener is an async function with NO try/catch;
`JSON.parse(e.data)` throws on invalid JSON (the `if (!messageObj)` guard
only catches the falsy parses `"null"`, `"false"`, `"0"`, `'""'`), and the
decryption `await`s can reject, so those failures escape the listener as an
unhandled promise rejection instead of reaching a log-and-ignore branch. -/

/-- Shape of an outbound frame as seen by the interception steps of
`proxiedSend`. -/
inductive OutMsg where
  /-- `JSON.parse(arguments[0])` throws. -/
  | notJson
  /-- parses to a falsy value. -/
  | jsonFalsy
  /-- WalletConnect-topic frame; the inner payload is itself JSON with the
  given outcome (`none`: inner parse throws; `some false`: falsy payload;
  `some true`: payload parsed, async decrypt scheduled). -/
  | wcFrame (innerPayload : Option Bool)
  /-- Coinbase `PublishEvent`/`Web3Request` frame (async decrypt is
  scheduled). -/
  | cbFrame
  /-- anything else. -/
  | otherFrame
deriving DecidableEq, Repr

/-- Result of the wrapped `send`: how many times `originalSend` was applied
to the unmodified arguments, and whether an interception failure was thrown
at the caller of `send`. -/
structure SendResult where
  origSendCalls : Nat
  thrownToCaller : Bool
deriving DecidableEq, Repr

/-- `proxiedSend`, with the session objects as explicit state
(`wcSessionMatches`: `messageObj.topic === wcObject?.peerId` and the frame
has a payload; `wcObject`/`cbObject` present flags).  Every interception
branch, the early-return branches and the catch-all included, ends in one
`originalSend.apply(this, arguments)`. -/
def proxiedSend (m : OutMsg) (wcObjectPresent cbObjectPresent : Bool) :
    SendResult :=
  match m with
  | OutMsg.notJson => ⟨1, false⟩
  | OutMsg.jsonFalsy => ⟨1, false⟩
  | OutMsg.wcFrame innerPayload =>
    if wcObjectPresent then
      match innerPayload with
      | none => ⟨1, false⟩
      | some false => ⟨1, false⟩
      | some true => ⟨1, false⟩
    else ⟨1, false⟩
  | OutMsg.cbFrame =>
    if cbObjectPresent then ⟨1, false⟩ else ⟨1, false⟩
  | OutMsg.otherFrame => ⟨1, false⟩

/-- Shape of an inbound frame as seen by the `message` listener. -/
inductive InMsg where
  /-- `JSON.parse(e.data)` throws. -/
  | notJson
  /-- parses to a falsy value: the guard logs and returns. -/
  | jsonFalsy
  /-- WalletConnect-topic frame whose payload decrypts to the given frame;
  `payloadOk = false` means the inner `JSON.parse` or the `await decrypt`
  fails (throws/rejects inside the listener). -/
  | wcFrame (payloadOk : Bool) (decrypted : DecryptedInbound)
  /-- anything else. -/
  | otherFrame
deriving Repr

/-- The inbound `message` listener on the WalletConnect path: `Except`
models a failure escaping the listener (there is no try/catch in the
source), `ok` carries the emissions and the map afterwards. -/
def wsInboundListener (m : InMsg) (wsMessages : WsMessages) :
    Except Unit (List Emission × WsMessages) :=
  match m with
  | InMsg.notJson => Except.error ()
  | InMsg.jsonFalsy => Except.ok ([], wsMessages)
  | InMsg.wcFrame payloadOk decrypted =>
    if payloadOk then Except.ok (handleWcInbound decrypted wsMessages)
    else Except.error ()
  | InMsg.otherFrame => Except.ok ([], wsMessages)

/-! ## `waitMined` (part_000 lines 2501-2532)

```js
async function waitMined(eventData, provider, retries = 50, pollIntervalSeconds = 5) {
  const txHash = eventData.tx.hash;
  let attempts = 0;
  while (attempts < retries) {
    const receipt = await provider.request({ method: 'eth_getTransactionReceipt', ... });
    if (receipt && receipt.blockNumber) {
      const status = receipt.status;
      return { blockNumber: receipt.blockNumber,
               status: status === '0x0' ? TxStatus.FAILURE : TxStatus.SUCCESS };
    }
    await sleep(pollIntervalSeconds * 1000);
    attempts++;
  }
  return null;
}
```
The chain client is modelled as the explicit response sequence `lookup`,
indexed by the attempt counter. -/

def waitMinedDefaultRetries : Nat := 50

def waitMinedDefaultPollIntervalSeconds : Nat := 5

/-- A raw JSON-RPC receipt response (`null` modelled by `Option` at the
call site); `blockNumber` and `status` are optional fields. -/
structure JsReceipt where
  blockNumber : Option String
  status : Option String
deriving DecidableEq, Repr

/-- The value returned by `waitMined` once mined. -/
structure TxReceipt where
  blockNumber : String
  status : TxStatus
deriving DecidableEq, Repr

/-- `receipt && receipt.blockNumber`: a response counts as mined only when
present with a truthy `blockNumber`. -/
def minedBlockNumber : Option JsReceipt → Option String
  | none => none
  | some r =>
    match r.blockNumber with
    | none => none
    | some bn => if jsStrTruthy bn then some bn else none

/-- The `while (attempts < retries)` loop of `waitMined`, with
`remaining = retries - attempts` as fuel. -/
def waitMinedLoop (lookup : Nat → Option JsReceipt) (attempts : Nat) :
    Nat → Option TxReceipt
  | 0 => none
  | remaining + 1 =>
    let receipt := lookup attempts
    match minedBlockNumber receipt with
    | some bn =>
      let status := (receipt.getD ⟨none, none⟩).status
      some ⟨bn, if status == some "0x0" then TxStatus.FAILURE
                else TxStatus.SUCCESS⟩
    | none => waitMinedLoop lookup (attempts + 1) remaining

/-- `waitMined` with explicit retry budget (defaults to
`waitMinedDefaultRetries = 50` in the source). -/
def waitMined (lookup : Nat → Option JsReceipt)
    (retries : Nat := waitMinedDefaultRetries) : Option TxReceipt :=
  waitMinedLoop lookup 0 retries

/-! ## `fetchCbObject` (part_000 lines 2144-2210)

Reads the six walletlink localStorage keys (with `newAddressesValue ??
storedAddresses` for the address list) and builds the session object only
behind the guard

```js
if (sessionId && linked && linked === '1' && addresses && addresses.length > 0 &&
    sessionSecret && defaultChainId && defaultJsonRpcUrl) { cbObject = {...}; }
```
-/

structure CbObject where
  sessionId : String
  sessionSecret : String
  addresses : String
  linked : String
  defaultChainId : String
  defaultJsonRpcUrl : String
deriving DecidableEq, Repr

/-- `newAddressesValue ?? localStorage.getItem(...Addresses)`: the `??`
operator falls through only on `null`/`undefined`, not on `""`. -/
def cbEffectiveAddresses (storedAddresses newAddressesValue : Option String) :
    Option String :=
  match newAddressesValue with
  | some v => some v
  | none => storedAddresses

/-- `fetchCbObject`: each argument is the corresponding localStorage read
(`none` = absent key); `newAddressesValue` is the optional override
parameter.  Returns the session assigned to `cbObject`, or `none` when the
guard fails (the source then leaves `cbObject` unset). -/
def fetchCbObject (sessionId linked defaultChainId defaultJsonRpcUrl
    sessionSecret storedAddresses newAddressesValue : Option String) :
    Option CbObject :=
  let addresses := cbEffectiveAddresses storedAddresses newAddressesValue
  match sessionId, linked, addresses, sessionSecret, defaultChainId,
      defaultJsonRpcUrl with
  | some sid, some lk, some addrs, some sec, some chain, some rpc =>
    if jsStrTruthy sid && jsStrTruthy lk && lk == "1" && jsStrTruthy addrs &&
        decide (0 < addrs.length) && jsStrTruthy sec && jsStrTruthy chain &&
        jsStrTruthy rpc then
      some ⟨sid, sec, addrs, lk, chain, rpc⟩
    else none
  | _, _, _, _, _, _ => none

/-! ## `getProviderNameForMetamask` (part_000 lines 2414-2432, the canonical
most recent variant; superseded variants at part_000 line 856 and
provider.ts lines 879 and 1619 probe `isMetaMask` first) -/

inductive ProviderName where
  | metamask | trust | gowallet | alphawallet | status | coinbase | cipher
  | mist | parity | infura | localhost | walletconnect | rabby | frame
  | unknown
deriving DecidableEq, Repr

/-- The injected provider object, restricted to the fields the probes
read (`window.__CIPHER__` is folded in as `cipherGlobalDefined`). -/
structure InjProvider where
  isTrust : Bool
  isGoWallet : Bool
  isAlphaWallet : Bool
  isStatus : Bool
  isCoinbaseWallet : Bool
  isRabby : Bool
  isFrame : Bool
  cipherGlobalDefined : Bool
  constructorName : String
  host : Option String
  isMetaMask : Bool
deriving DecidableEq, Repr

/-- `fetchedProvider.host && fetchedProvider.host.indexOf(s) !== -1`. -/
def hostContains (p : InjProvider) (s : String) : Bool :=
  match p.host with
  | none => false
  | some h => jsStrTruthy h && jsIndexOfFound s.data h.data

/-- `getProviderNameForMetamask`, probe for probe in source order. -/
def getProviderNameForMetamask (p : InjProvider) : ProviderName :=
  if p.isTrust then ProviderName.trust
  else if p.isGoWallet then ProviderName.gowallet
  else if p.isAlphaWallet then ProviderName.alphawallet
  else if p.isStatus then ProviderName.status
  else if p.isCoinbaseWallet then ProviderName.coinbase
  else if p.isRabby then ProviderName.rabby
  else if p.isFrame then ProviderName.frame
  else if p.cipherGlobalDefined then ProviderName.cipher
  else if p.constructorName == "EthereumProvider" then ProviderName.mist
  else if p.constructorName == "Web3FrameProvider" then ProviderName.parity
  else if hostContains p "infura" then ProviderName.infura
  else if hostContains p "localhost" then ProviderName.localhost
  else if p.isMetaMask then ProviderName.metamask
  else ProviderName.unknown

/-- The same probes as an explicit ordered `(predicate, label)` list. -/
def providerProbes : List ((InjProvider → Bool) × ProviderName) :=
  [(fun p => p.isTrust, ProviderName.trust),
   (fun p => p.isGoWallet, ProviderName.gowallet),
   (fun p => p.isAlphaWallet, ProviderName.alphawallet),
   (fun p => p.isStatus, ProviderName.status),
   (fun p => p.isCoinbaseWallet, ProviderName.coinbase),
   (fun p => p.isRabby, ProviderName.rabby),
   (fun p => p.isFrame, ProviderName.frame),
   (fun p => p.cipherGlobalDefined, ProviderName.cipher),
   (fun p => p.constructorName == "EthereumProvider", ProviderName.mist),
   (fun p => p.constructorName == "Web3FrameProvider", ProviderName.parity),
   (fun p => hostContains p "infura", ProviderName.infura),
   (fun p => hostContains p "localhost", ProviderName.localhost),
   (fun p => p.isMetaMask, ProviderName.metamask)]

/-- First matching probe wins; no match yields `unknown`. -/
def firstProbeMatch (probes : List ((InjProvider → Bool) × ProviderName))
    (p : InjProvider) : ProviderName :=
  match probes with
  | [] => ProviderName.unknown
  | (pred, name) :: rest =>
    if pred p then name else firstProbeMatch rest p

/-! ## `aes256gcmDecrypt` (src/src/core/middleware/modal.ts lines 143-196)

```ts
function hexStringToUint8Array(hexString) {
  return new Uint8Array(hexString.match(/.{1,2}/g)!.map((byte) => parseInt(byte, 16)));
}
function aes256gcmDecrypt(cipherText, secret) {
  if (secret.length !== 64) throw Error(`secret must be 256 bits`);
  ... importKey('raw', hexStringToUint8Array(secret), { name: 'aes-gcm' }, ...)
  const encrypted = hexStringToUint8Array(cipherText);
  const ivBytes = encrypted.slice(0, 12);
  const authTagBytes = encrypted.slice(12, 28);
  const encryptedPlaintextBytes = encrypted.slice(28);
  const concattedBytes = new Uint8Array([...encryptedPlaintextBytes, ...authTagBytes]);
  ... crypto.subtle.decrypt({ name: 'AES-GCM', iv: ivBytes }, secretKey, concattedBytes)
}
```
WebCrypto itself is the external collaborator; the embedding computes the
exact arguments handed to `crypto.subtle.decrypt` (key bytes, IV bytes,
data bytes) or the thrown error. -/

/-- Value of one hex digit, `none` for a non-hex character. -/
def hexDigitVal (c : Char) : Option Nat :=
  if ('0' ≤ c && c ≤ '9') then some (c.toNat - '0'.toNat)
  else if ('a' ≤ c && c ≤ 'f') then some (c.toNat - 'a'.toNat + 10)
  else if ('A' ≤ c && c ≤ 'F') then some (c.toNat - 'A'.toNat + 10)
  else none

/-- `hexString.match(/.{1,2}/g)`: split into two-character chunks, a final
single character forming its own chunk. -/
def chunkPairs : List Char → List (List Char)
  | [] => []
  | [a] => [[a]]
  | a :: b :: rest => [a, b] :: chunkPairs rest

/-- `parseInt(chunk, 16)` followed by the `Uint8Array` coercion
(`NaN` becomes `0`): parse greedily from the left, an invalid first
character gives `NaN` hence `0`. -/
def jsParseHexChunk : List Char → Nat
  | [a] => (hexDigitVal a).getD 0
  | [a, b] =>
    match hexDigitVal a with
    | none => 0
    | some da =>
      match hexDigitVal b with
      | none => da
      | some db => 16 * da + db
  | _ => 0

/-- `hexStringToUint8Array`. -/
def hexStringToUint8Array (hexString : String) : List Nat :=
  (chunkPairs hexString.data).map jsParseHexChunk

/-- The arguments handed to the standard AEAD decrypt call: the imported
raw key bytes, the IV, and the data buffer. -/
structure SubtleDecryptCall where
  keyBytes : List Nat
  iv : List Nat
  data : List Nat
deriving DecidableEq, Repr

/-- `aes256gcmDecrypt`, up to the `crypto.subtle.decrypt` invocation:
rejects secrets whose hex string is not 64 characters (32 bytes) before
touching the ciphertext, otherwise splits the hex-decoded input into a
12-byte IV, a 16-byte auth tag and the ciphertext, and calls the standard
decrypt on ciphertext-followed-by-tag with that IV. -/
def aes256gcmDecrypt (cipherText secret : String) :
    Except String SubtleDecryptCall :=
  if secret.length ≠ 64 then Except.error "secret must be 256 bits"
  else
    let encrypted := hexStringToUint8Array cipherText
    let ivBytes := encrypted.take 12
    let authTagBytes := (encrypted.drop 12).take 16
    let encryptedPlaintextBytes := encrypted.drop 28
    Except.ok ⟨hexStringToUint8Array secret, ivBytes,
      encryptedPlaintextBytes ++ authTagBytes⟩

/-! ## Helper lemmas -/

theorem toInt32_lb (n : Int) : -2147483648 ≤ toInt32 n := by
  unfold toInt32
  omega

theorem toInt32_ub (n : Int) : toInt32 n < 2147483648 := by
  unfold toInt32
  omega

theorem hashEventFold_mem_int32 (s : String) :
    -2147483648 ≤ hashEventFold s ∧ hashEventFold s < 2147483648 := by
  have key : ∀ (l : List Char) (a : Int), -2147483648 ≤ a → a < 2147483648 →
      -2147483648 ≤ l.foldl (fun h c => hashEventStep h c.toNat) a ∧
        l.foldl (fun h c => hashEventStep h c.toNat) a < 2147483648 := by
    intro l
    induction l with
    | nil => intro a h1 h2; exact ⟨h1, h2⟩
    | cons c rest ih =>
      intro a _ _
      simpa using ih (hashEventStep a c.toNat) (toInt32_lb _) (toInt32_ub _)
  exact key s.data 0 (by norm_num) (by norm_num)

theorem mapGet_mapSet_self (m : List (String × Int)) (k : String) (v : Int) :
    mapGet (mapSet m k v) k = some v := by
  induction m with
  | nil => simp [mapSet, mapGet]
  | cons p rest ih =>
    by_cases h : p.1 == k
    · simp [mapSet, mapGet, h]
    · simp [mapSet, mapGet, h, ih]

/-! ## C10 -/

/-- C10: `hashEvent` is a deterministic total function of the event's JSON
serialization: two events with equal `JSON.stringify` output get equal hash
strings, and the returned string is the decimal form of the 32-bit signed
integer obtained by folding `hash = (hash << 5) - hash + charCode` (with
32-bit coercion) over the serialized characters starting from 0. -/
theorem hashEvent_deterministic_int32 {α : Type} (stringify : α → String)
    (e1 e2 : α) (h : stringify e1 = stringify e2) :
    hashEvent stringify e1 = hashEvent stringify e2 ∧
    hashEvent stringify e1 =
      toString ((stringify e1).data.foldl
        (fun hash c => toInt32 (toInt32 (hash * 32) - hash + c.toNat)) 0) ∧
    -2147483648 ≤ hashEventFold (stringify e1) ∧
    hashEventFold (stringify e1) < 2147483648 := by
  refine ⟨?_, rfl, hashEventFold_mem_int32 _⟩
  unfold hashEvent
  rw [h]

theorem hashEvent_deterministic_int32_witness :
    hashEvent (fun _ : Nat => "ab") 0 = hashEvent (fun _ : Nat => "ab") 1 ∧
    hashEvent (fun _ : Nat => "ab") 0 =
      toString ((("ab" : String)).data.foldl
        (fun hash c => toInt32 (toInt32 (hash * 32) - hash + c.toNat)) 0) ∧
    -2147483648 ≤ hashEventFold "ab" ∧ hashEventFold "ab" < 2147483648 :=
  hashEvent_deterministic_int32 (fun _ : Nat => "ab") 0 1 rfl

/-! ## C5 -/

/-- C5: for every property other than `request`, the provider wrapper's
`get` trap is a plain `Reflect.get` pass-through of the underlying
provider's own property; only the single `request` dispatch method is
intercepted. -/
theorem handlerGet_transparent {α : Type} (target : String → α)
    (prop : String) (h : prop ≠ "request") :
    handlerGet target prop = HandlerGetResult.passthrough (target prop) := by
  simp [handlerGet, proxiedFunctions, h]

theorem handlerGet_transparent_witness :
    handlerGet (fun _ => (7 : Nat)) "on" = HandlerGetResult.passthrough 7 :=
  handlerGet_transparent (fun _ => (7 : Nat)) "on" (by decide)

/-! ## C1 -/

/-- C1: `checkShouldLogEvent` returns `false` exactly when the stored dedup
record holds a prior emission timestamp for the event's structural hash
less than the fixed 1000 ms window before the current time, and `true`
otherwise; in both cases it unconditionally stores the current timestamp
for that hash.  Consequently two structurally identical events less than
the window apart produce exactly one backend call, and two more than the
window apart produce two.  (Stored timestamps are `Date.now()` values,
hence positive: hypothesis `hpos`.) -/
theorem checkShouldLogEvent_dedup_window {α : Type} (stringify : α → String)
    (e : α) (now : Int) (store : List (String × Int))
    (hpos : ∀ p, mapGet store (hashEvent stringify e) = some p → 0 < p) :
    MIN_TIME_DIFF_FOR_EVENT_LOG_MS = 1000 ∧
    ((checkShouldLogEvent stringify e now store).1 = false ↔
      ∃ p, mapGet store (hashEvent stringify e) = some p ∧
        now - p < MIN_TIME_DIFF_FOR_EVENT_LOG_MS) ∧
    (checkShouldLogEvent stringify e now store).2 =
      mapSet store (hashEvent stringify e) now ∧
    ∀ (t1 t2 : Int) (store0 : List (String × Int)),
      mapGet store0 (hashEvent stringify e) = none → 0 < t1 → t1 ≤ t2 →
      (t2 - t1 < MIN_TIME_DIFF_FOR_EVENT_LOG_MS →
        (logEventsCalls stringify [(e, t1), (e, t2)] store0).1 = 1) ∧
      (MIN_TIME_DIFF_FOR_EVENT_LOG_MS < t2 - t1 →
        (logEventsCalls stringify [(e, t1), (e, t2)] store0).1 = 2) := by
  refine ⟨rfl, ?_, rfl, ?_⟩
  · cases hm : mapGet store (hashEvent stringify e) with
    | none => simp [checkShouldLogEvent, hm]
    | some prev =>
      have hp : 0 < prev := hpos prev hm
      have hne : (prev != 0) = true := by simp [bne_iff_ne]; omega
      by_cases hlt : now - prev < MIN_TIME_DIFF_FOR_EVENT_LOG_MS
      · simp [checkShouldLogEvent, hm, jsNumTruthy, hne, hlt]
      · simp [checkShouldLogEvent, hm, jsNumTruthy, hne, hlt]
  · intro t1 t2 store0 hfresh ht1 _
    have hne1 : (t1 != 0) = true := by simp [bne_iff_ne]; omega
    constructor <;> intro hlt
    · simp [logEventsCalls, checkShouldLogEvent, storeEvent, hfresh,
        mapGet_mapSet_self, jsNumTruthy, hne1, hlt]
    · have hnlt : ¬(t2 - t1 < MIN_TIME_DIFF_FOR_EVENT_LOG_MS) := by omega
      simp [logEventsCalls, checkShouldLogEvent, storeEvent, hfresh,
        mapGet_mapSet_self, jsNumTruthy, hne1, hnlt]

theorem checkShouldLogEvent_dedup_window_witness :
    (checkShouldLogEvent (fun _ : Nat => "x") 0 1500 [("120", 1000)]).1
      = false ∧
    (logEventsCalls (fun _ : Nat => "x") [(0, 2000), (0, 2500)] []).1 = 1 ∧
    (logEventsCalls (fun _ : Nat => "x") [(0, 2000), (0, 3500)] []).1 = 2 := by
  have hpos : ∀ p, mapGet [("120", 1000)] (hashEvent (fun _ : Nat => "x") 0)
      = some p → 0 < p := by
    intro p hp
    have h120 : hashEvent (fun _ : Nat => "x") 0 = "120" := by decide
    rw [h120] at hp
    simp [mapGet] at hp
    omega
  have hposNil : ∀ p, mapGet [] (hashEvent (fun _ : Nat => "x") 0)
      = some p → 0 < p := by
    intro p hp
    simp [mapGet] at hp
  refine ⟨?_, ?_, ?_⟩
  · refine ((checkShouldLogEvent_dedup_window (fun _ : Nat => "x") 0 1500
      [("120", 1000)] hpos).2.1).mpr ⟨1000, ?_, by decide⟩
    have h120 : hashEvent (fun _ : Nat => "x") 0 = "120" := by decide
    rw [h120]
    simp [mapGet]
  · exact (((checkShouldLogEvent_dedup_window (fun _ : Nat => "x") 0 0
      [] hposNil).2.2.2) 2000 2500 [] (by decide) (by decide)
      (by decide)).1 (by decide)
  · exact (((checkShouldLogEvent_dedup_window (fun _ : Nat => "x") 0 0
      [] hposNil).2.2.2) 2000 3500 [] (by decide) (by decide)
      (by decide)).2 (by decide)

/-! ## C2 -/

/-- C2 counterexample: with the pending-request map holding correlation id
`"1"`, handling a matching successful inbound frame leaves the entry in the
map (nothing is ever deleted), and a second inbound frame with the same id
is correlated again and produces another PENDING TxRequest emission —
refuting both the removal and the no-effect parts of the claim. -/
theorem handleWcInbound_consumption_cex :
    (handleWcInbound ⟨some "1", none, some "0xh"⟩ [("1", ⟨"0xaaa"⟩)]).2
      = [("1", ⟨"0xaaa"⟩)] ∧
    wsGet (handleWcInbound ⟨some "1", none, some "0xh"⟩
      [("1", ⟨"0xaaa"⟩)]).2 "1" = some ⟨"0xaaa"⟩ ∧
    (handleWcInbound ⟨some "1", none, some "0xh"⟩
        ((handleWcInbound ⟨some "1", none, some "0xh"⟩
          [("1", ⟨"0xaaa"⟩)]).2)).1
      = [⟨⟨"0xaaa"⟩, TxStatus.PENDING, some "0xh"⟩] := by
  refine ⟨rfl, rfl, rfl⟩

/-- C2 amended: handling an inbound bridge frame never removes the entry
for its correlation id — the map is returned unchanged on every path
(success, error, unmatched) — so a subsequent inbound frame with the same
id is handled identically to the first, repeating its TxRequest emission
rather than having no effect. -/
theorem handleWcInbound_map_unchanged (d : DecryptedInbound)
    (m : WsMessages) :
    (handleWcInbound d m).2 = m ∧
    handleWcInbound d (handleWcInbound d m).2 = handleWcInbound d m := by
  have hm : (handleWcInbound d m).2 = m := by
    unfold handleWcInbound
    rcases d with ⟨id, err, res⟩
    rcases id with _ | id
    · rfl
    · dsimp only
      by_cases hid : jsStrTruthy id
      · simp only [hid, if_true]
        rcases h : wsGet m id with _ | tx
        · rfl
        · rcases err with _ | msg
          · rfl
          · rcases msg with _ | msg
            · rfl
            · dsimp only
              split <;> rfl
      · simp [hid]
  exact ⟨hm, by rw [hm]⟩

/-! ## C3 -/

/-- C3: in the wrapped request dispatch, a failure of the underlying call
is swallowed, not re-thrown: the `catch` block emits a CANCELLED TxRequest
event (no hash) when the error code is 4001, but for every other error it
does nothing and the async wrapper resolves with `undefined` — at the
concrete failing input (code 4000) the caller receives `undefined` and no
event, and in general no error object ever propagates to the caller,
contradicting the claim that unrecognized failures are re-thrown verbatim. -/
theorem handlerRequest_swallows_unknown_errors :
    handlerRequest "eth_sendTransaction" "0xaaa" (Except.error ⟨some 4000⟩)
      = ([], CallerOutcome.value none) ∧
    handlerRequest "eth_sendTransaction" "0xaaa" (Except.error ⟨some 4001⟩)
      = ([⟨⟨"0xaaa"⟩, TxStatus.CANCELLED, none⟩], CallerOutcome.value none) ∧
    ∀ (method paramsFrom : String) (err : JsError),
      (handlerRequest method paramsFrom (Except.error err)).2
        = CallerOutcome.value none := by
  refine ⟨by decide, by decide, ?_⟩
  intro method paramsFrom err
  unfold handlerRequest
  rcases err with ⟨code⟩
  rcases code with _ | c
  · rfl
  · dsimp only
    split <;> rfl

/-! ## C4 -/

/-- C4: the outbound half of the claim holds — `proxiedSend` forwards the
unmodified arguments to the original `send` exactly once on every path and
never throws an interception failure at the caller — but the inbound half
fails: the inbound `message` listener has no protective boundary, so a
frame whose data is not valid JSON (and likewise a payload whose parse or
decryption fails) makes the listener itself fail instead of being logged
and ignored. -/
theorem wsInterception_boundary :
    (∀ (m : OutMsg) (wcPresent cbPresent : Bool),
      proxiedSend m wcPresent cbPresent = ⟨1, false⟩) ∧
    wsInboundListener InMsg.notJson [] = Except.error () ∧
    wsInboundListener (InMsg.wcFrame false ⟨some "1", none, some "0xh"⟩)
      [("1", ⟨"0xaaa"⟩)] = Except.error () := by
  refine ⟨?_, rfl, rfl⟩
  intro m wcPresent cbPresent
  rcases m with _ | _ | ip | _ | _
  · rfl
  · rfl
  · rcases ip with _ | b
    · cases wcPresent <;> rfl
    · cases wcPresent <;> cases b <;> rfl
  · cases cbPresent <;> rfl
  · rfl

/-! ## C6 -/

theorem waitMinedLoop_all_unmined (lookup : Nat → Option JsReceipt) :
    ∀ (remaining attempts : Nat),
    (∀ i, attempts ≤ i → i < attempts + remaining →
      minedBlockNumber (lookup i) = none) →
    waitMinedLoop lookup attempts remaining = none := by
  intro remaining
  induction remaining with
  | zero => intro attempts _; rfl
  | succ rem ih =>
    intro attempts h
    have h0 : minedBlockNumber (lookup attempts) = none :=
      h attempts (Nat.le_refl _) (by omega)
    unfold waitMinedLoop
    dsimp only
    rw [h0]
    exact ih (attempts + 1) (fun i hi1 hi2 => h i (by omega) (by omega))

theorem waitMinedLoop_first_mined (lookup : Nat → Option JsReceipt) :
    ∀ (remaining attempts n : Nat) (r : JsReceipt) (bn : String),
    attempts ≤ n → n < attempts + remaining →
    (∀ i, attempts ≤ i → i < n → minedBlockNumber (lookup i) = none) →
    lookup n = some r → minedBlockNumber (some r) = some bn →
    waitMinedLoop lookup attempts remaining =
      some ⟨bn, if r.status == some "0x0" then TxStatus.FAILURE
                else TxStatus.SUCCESS⟩ := by
  intro remaining
  induction remaining with
  | zero => intro attempts n r bn h1 h2; omega
  | succ rem ih =>
    intro attempts n r bn h1 h2 hnone hr hbn
    unfold waitMinedLoop
    dsimp only
    by_cases heq : attempts = n
    · subst heq
      rw [hr, hbn]
      simp
    · have h0 : minedBlockNumber (lookup attempts) = none :=
        hnone attempts (Nat.le_refl _) (by omega)
      rw [h0]
      exact ih (attempts + 1) n r bn (by omega) (by omega)
        (fun i hi1 hi2 => hnone i (by omega) hi2) hr hbn

/-- C6: `waitMined` polls the receipt lookup with default budget 50
attempts and 5-second interval; on the first response carrying a (truthy)
block number it returns immediately — FAILURE when the receipt status is
the zero status code `0x0`, SUCCESS for any other present status — and if
the budget is exhausted with no such receipt it returns `none`, never an
error. -/
theorem waitMined_first_receipt_decides :
    waitMinedDefaultRetries = 50 ∧
    waitMinedDefaultPollIntervalSeconds = 5 ∧
    (∀ (lookup : Nat → Option JsReceipt) (retries n : Nat) (r : JsReceipt)
        (bn : String),
      n < retries →
      (∀ i, i < n → minedBlockNumber (lookup i) = none) →
      lookup n = some r → minedBlockNumber (some r) = some bn →
      waitMined lookup retries =
        some ⟨bn, if r.status == some "0x0" then TxStatus.FAILURE
                  else TxStatus.SUCCESS⟩) ∧
    (∀ (lookup : Nat → Option JsReceipt) (retries : Nat),
      (∀ i, i < retries → minedBlockNumber (lookup i) = none) →
      waitMined lookup retries = none) := by
  refine ⟨rfl, rfl, ?_, ?_⟩
  · intro lookup retries n r bn hn hnone hr hbn
    exact waitMinedLoop_first_mined lookup retries 0 n r bn (Nat.zero_le _)
      (by omega) (fun i _ hi => hnone i hi) hr hbn
  · intro lookup retries hnone
    exact waitMinedLoop_all_unmined lookup retries 0
      (fun i _ hi => hnone i (by omega))

theorem waitMined_first_receipt_decides_witness :
    waitMined
      (fun i => if i = 2 then some ⟨some "0x10", some "0x0"⟩ else none)
      50 = some ⟨"0x10", TxStatus.FAILURE⟩ ∧
    waitMined (fun _ => none) 50 = none := by
  constructor
  · have h := waitMined_first_receipt_decides.2.2.1
      (fun i => if i = 2 then some ⟨some "0x10", some "0x0"⟩ else none)
      50 2 ⟨some "0x10", some "0x0"⟩ "0x10" (by decide)
      (by intro i hi; interval_cases i <;> rfl) rfl rfl
    simpa using h
  · exact waitMined_first_receipt_decides.2.2.2 (fun _ => none) 50
      (fun i _ => rfl)

/-! ## C7 -/

theorem chunkPairs_length (l : List Char) :
    (chunkPairs l).length = (l.length + 1) / 2 := by
  match l with
  | [] => rfl
  | [a] => simp [chunkPairs]
  | a :: b :: rest =>
    have ih := chunkPairs_length rest
    simp only [chunkPairs, List.length_cons, ih]
    omega

theorem hexStringToUint8Array_length (s : String) :
    (hexStringToUint8Array s).length = (s.length + 1) / 2 := by
  unfold hexStringToUint8Array
  rw [List.length_map, chunkPairs_length]
  rfl

/-- C7: `aes256gcmDecrypt` throws before touching the ciphertext whenever
the secret's hex string is not 64 characters (32 bytes); for a 64-character
secret it decodes the input as a 12-byte IV, then a 16-byte auth tag, then
the ciphertext, and invokes the standard AES-GCM decrypt on the
ciphertext-followed-by-tag layout with that IV and the 32 decoded key
bytes. -/
theorem aes256gcmDecrypt_layout :
    (∀ (cipherText secret : String), secret.length ≠ 64 →
      aes256gcmDecrypt cipherText secret =
        Except.error "secret must be 256 bits") ∧
    (∀ (cipherText secret : String), secret.length = 64 →
      (hexStringToUint8Array secret).length = 32 ∧
      aes256gcmDecrypt cipherText secret =
        Except.ok ⟨hexStringToUint8Array secret,
          (hexStringToUint8Array cipherText).take 12,
          (hexStringToUint8Array cipherText).drop 28 ++
            ((hexStringToUint8Array cipherText).drop 12).take 16⟩) := by
  constructor
  · intro cipherText secret h
    simp [aes256gcmDecrypt, h]
  · intro cipherText secret h
    constructor
    · rw [hexStringToUint8Array_length, h]
    · simp [aes256gcmDecrypt, h]

set_option maxHeartbeats 2000000 in
theorem aes256gcmDecrypt_layout_witness :
    aes256gcmDecrypt "aabbcc" "00ff" = Except.error "secret must be 256 bits" ∧
    (hexStringToUint8Array
      "00112233445566778899aabbccddeeff00112233445566778899aabbccddeeff").length
        = 32 ∧
    aes256gcmDecrypt "aabbcc"
      "00112233445566778899aabbccddeeff00112233445566778899aabbccddeeff" =
      Except.ok ⟨hexStringToUint8Array
          "00112233445566778899aabbccddeeff00112233445566778899aabbccddeeff",
        (hexStringToUint8Array "aabbcc").take 12,
        (hexStringToUint8Array "aabbcc").drop 28 ++
          ((hexStringToUint8Array "aabbcc").drop 12).take 16⟩ := by
  refine ⟨aes256gcmDecrypt_layout.1 "aabbcc" "00ff" (by decide), ?_, ?_⟩
  · exact (aes256gcmDecrypt_layout.2 "aabbcc"
      "00112233445566778899aabbccddeeff00112233445566778899aabbccddeeff"
      (by decide)).1
  · exact (aes256gcmDecrypt_layout.2 "aabbcc"
      "00112233445566778899aabbccddeeff00112233445566778899aabbccddeeff"
      (by decide)).2

/-! ## C8 -/

/-- C8: injected-provider brand detection evaluates the fixed ordered probe
list and returns the label of the first matching probe; a provider that
sets a distinguishing brand flag is never detected as `metamask` (the
`isMetaMask` probe comes last), and in particular the claim's example
brands `trust`, `rabby` and `frame` win over a simultaneously set
`isMetaMask` flag. -/
theorem getProviderNameForMetamask_probe_order :
    (∀ p : InjProvider,
      getProviderNameForMetamask p = firstProbeMatch providerProbes p) ∧
    (∀ p : InjProvider,
      (p.isTrust || p.isGoWallet || p.isAlphaWallet || p.isStatus ||
        p.isCoinbaseWallet || p.isRabby || p.isFrame) = true →
      getProviderNameForMetamask p ≠ ProviderName.metamask) ∧
    (∀ p : InjProvider, p.isTrust = true →
      getProviderNameForMetamask p = ProviderName.trust) ∧
    (∀ p : InjProvider, p.isRabby = true → p.isTrust = false →
      p.isGoWallet = false → p.isAlphaWallet = false → p.isStatus = false →
      p.isCoinbaseWallet = false →
      getProviderNameForMetamask p = ProviderName.rabby) ∧
    (∀ p : InjProvider, p.isFrame = true → p.isTrust = false →
      p.isGoWallet = false → p.isAlphaWallet = false → p.isStatus = false →
      p.isCoinbaseWallet = false → p.isRabby = false →
      getProviderNameForMetamask p = ProviderName.frame) := by
  refine ⟨fun p => rfl, ?_, ?_, ?_, ?_⟩
  · intro p h
    rcases p with ⟨b1, b2, b3, b4, b5, b6, b7, b8, cn, ho, b9⟩
    simp only [Bool.or_eq_true] at h
    unfold getProviderNameForMetamask
    dsimp only
    rcases h with ((((((h | h) | h) | h) | h) | h) | h) <;>
      simp [h] <;> split_ifs <;> decide
  · intro p h
    simp [getProviderNameForMetamask, h]
  · intro p h h1 h2 h3 h4 h5
    simp [getProviderNameForMetamask, h, h1, h2, h3, h4, h5]
  · intro p h h1 h2 h3 h4 h5 h6
    simp [getProviderNameForMetamask, h, h1, h2, h3, h4, h5, h6]

theorem getProviderNameForMetamask_probe_order_witness :
    getProviderNameForMetamask
      ⟨true, false, false, false, false, false, false, false, "", none, true⟩
      ≠ ProviderName.metamask ∧
    getProviderNameForMetamask
      ⟨true, false, false, false, false, false, false, false, "", none, true⟩
      = ProviderName.trust ∧
    getProviderNameForMetamask
      ⟨false, false, false, false, false, true, false, false, "", none, true⟩
      = ProviderName.rabby ∧
    getProviderNameForMetamask
      ⟨false, false, false, false, false, false, true, false, "", none, true⟩
      = ProviderName.frame := by
  refine ⟨getProviderNameForMetamask_probe_order.2.1 _ (by decide),
    getProviderNameForMetamask_probe_order.2.2.1 _ (by decide),
    getProviderNameForMetamask_probe_order.2.2.2.1 _ (by decide) (by decide)
      (by decide) (by decide) (by decide) (by decide),
    getProviderNameForMetamask_probe_order.2.2.2.2 _ (by decide) (by decide)
      (by decide) (by decide) (by decide) (by decide) (by decide)⟩

/-! ## C9 -/

theorem jsStrTruthy_iff_length_pos (s : String) :
    jsStrTruthy s = true ↔ 0 < s.length := by
  rcases s with ⟨data⟩
  cases data with
  | nil => simp [jsStrTruthy, String.length]
  | cons c cs => simp [jsStrTruthy, String.length, String.ext_iff]

/-- C9: `fetchCbObject` produces a session exactly when the session id, the
linked flag equal to the sentinel `"1"`, a non-empty (effective) addresses
value, the session secret, the default chain id and the default RPC URL are
all present and non-empty; and any session it produces carries exactly
those stored values — never a partially-filled descriptor. -/
theorem fetchCbObject_strict :
    (∀ (sid lk chain rpc sec addrs newAddrs : Option String),
      ((fetchCbObject sid lk chain rpc sec addrs newAddrs).isSome = true ↔
        (jsOptStrTruthy sid = true ∧ lk = some "1" ∧
          jsOptStrTruthy (cbEffectiveAddresses addrs newAddrs) = true ∧
          jsOptStrTruthy sec = true ∧ jsOptStrTruthy chain = true ∧
          jsOptStrTruthy rpc = true))) ∧
    (∀ (sid lk chain rpc sec addrs newAddrs : Option String) (o : CbObject),
      fetchCbObject sid lk chain rpc sec addrs newAddrs = some o →
      sid = some o.sessionId ∧ o.sessionId ≠ "" ∧
      lk = some o.linked ∧ o.linked = "1" ∧
      cbEffectiveAddresses addrs newAddrs = some o.addresses ∧
      o.addresses ≠ "" ∧
      sec = some o.sessionSecret ∧ o.sessionSecret ≠ "" ∧
      chain = some o.defaultChainId ∧ o.defaultChainId ≠ "" ∧
      rpc = some o.defaultJsonRpcUrl ∧ o.defaultJsonRpcUrl ≠ "") := by
  constructor
  · intro sid lk chain rpc sec addrs newAddrs
    unfold fetchCbObject
    dsimp only
    rcases hA : cbEffectiveAddresses addrs newAddrs with _ | a <;>
      rcases sid with _ | s <;> rcases lk with _ | l <;>
      rcases sec with _ | c <;> rcases chain with _ | ch <;>
      rcases rpc with _ | rp <;>
      simp only [hA, Option.isSome_none, Option.isSome_some, jsOptStrTruthy,
        jsStrTruthy] <;>
      try simp
    constructor
    · rintro ⟨⟨⟨⟨⟨⟨⟨hs, _⟩, hl1⟩, ha⟩, _⟩, hc⟩, hch⟩, hrp⟩
      exact ⟨hs, hl1, ha, hc, hch, hrp⟩
    · rintro ⟨hs, hl1, ha, hc, hch, hrp⟩
      have halen : 0 < a.length := (jsStrTruthy_iff_length_pos a).mp
        (by simp [jsStrTruthy, ha])
      refine ⟨⟨⟨⟨⟨⟨⟨hs, ?_⟩, hl1⟩, ha⟩, halen⟩, hc⟩, hch⟩, hrp⟩
      rw [hl1]
      decide
  · intro sid lk chain rpc sec addrs newAddrs o heq
    unfold fetchCbObject at heq
    dsimp only at heq
    rcases hA : cbEffectiveAddresses addrs newAddrs with _ | a <;>
      rw [hA] at heq <;>
      rcases sid with _ | s <;> rcases lk with _ | l <;>
      rcases sec with _ | c <;> rcases chain with _ | ch <;>
      rcases rpc with _ | rp <;>
      try exact Option.noConfusion heq
    dsimp only at heq
    split_ifs at heq with hcond
    · simp only [jsStrTruthy, Bool.and_eq_true, bne_iff_ne, ne_eq,
        beq_iff_eq, decide_eq_true_eq] at hcond
      obtain ⟨⟨⟨⟨⟨⟨⟨hs, _⟩, hl1⟩, ha⟩, _⟩, hc⟩, hch⟩, hrp⟩ := hcond
      injection heq with hinj
      subst hinj
      exact ⟨rfl, hs, rfl, hl1, rfl, ha, rfl, hc, rfl, hch, rfl, hrp⟩

theorem fetchCbObject_strict_witness :
    (fetchCbObject (some "sid") (some "1") (some "5") (some "https://r")
      (some "sec") (some "0xaddr") none).isSome = true ∧
    (CbObject.addresses ⟨"sid", "sec", "0xaddr", "1", "5", "https://r"⟩
      ≠ "") ∧
    (some "0xaddr" : Option String) =
      some (CbObject.addresses
        ⟨"sid", "sec", "0xaddr", "1", "5", "https://r"⟩) := by
  refine ⟨?_, ?_, ?_⟩
  · exact (fetchCbObject_strict.1 (some "sid") (some "1") (some "5")
      (some "https://r") (some "sec") (some "0xaddr") none).mpr
      ⟨by decide, rfl, by decide, by decide, by decide, by decide⟩
  · exact (fetchCbObject_strict.2 (some "sid") (some "1") (some "5")
      (some "https://r") (some "sec") (some "0xaddr") none
      ⟨"sid", "sec", "0xaddr", "1", "5", "https://r"⟩
      (by decide)).2.2.2.2.2.1
  · exact (fetchCbObject_strict.2 (some "sid") (some "1") (some "5")
      (some "https://r") (some "sec") (some "0xaddr") none
      ⟨"sid", "sec", "0xaddr", "1", "5", "https://r"⟩
      (by decide)).2.2.2.2.1

end Polyflow
